import Mathlib

/-!
Verification of the reconciliation policy of the finos-legend charm library
(repository `legend-juju-libs`). The only Python file under analysis is the
test scaffolding `src/lib/charms/finos_legend_libs/v0/legend_operator_testing.py`;
the base-charm implementation it exercises (`legend_operator_base`) is not in
the repository snapshot, so those operations are modelled from the
specification's description of the reconciliation policy, kept consistent with
the behaviour the in-repository harness tests assert.
-/

namespace LegendCharm

/-- A unit status, mirroring `ops.model` statuses `BlockedStatus`,
`WaitingStatus` and `ActiveStatus` with their human-readable message. -/
inductive Status where
  | blocked (msg : String)
  | waiting (msg : String)
  | active
deriving Repr, DecidableEq

/-- Whether a status is a blocked status. -/
def Status.isBlocked : Status → Bool
  | .blocked _ => true
  | _ => false

/-- Whether a status is a waiting status. -/
def Status.isWaiting : Status → Bool
  | .waiting _ => true
  | _ => false

/-- One recorded call to the container file-write interface
(`add_file_to_container(container, path, data, make_dirs=..., raise_on_error=...)`).
A keyword argument left at its default by the caller is recorded as `none`,
matching the exact keyword sets the harness asserts on
(`mock.call(container, path, data, raise_on_error=False)` for the truststore and
`mock.call(container, path, data, make_dirs=True)` for service config files). -/
structure WriteCall where
  path : String
  data : String
  make_dirs : Option Bool
  raise_on_error : Option Bool
deriving Repr, DecidableEq

/-! ## Trust Provisioner (`_setup_jks_truststore`) -/

/-- The `truststore_preferences` argument as a dynamic Python value: either not
a mapping at all (the harness passes the integer `13`), or a mapping with the
three optional keys the provisioner inspects. Certificate material is opaque
and modelled as a string. -/
inductive JksPrefsInput where
  | nonMapping
  | mapping (truststore_path : Option String)
            (truststore_passphrase : Option String)
            (trusted_certificates : Option (List (String × String)))
deriving Repr, DecidableEq

/-- Modelled from the spec: the shape validation of `_setup_jks_truststore`
(`legend_operator_base` is not under `src/`). A preferences value is valid iff
it is a mapping containing a non-empty `truststore_path` and a non-empty
`trusted_certificates` mapping; every other shape (non-mapping, empty mapping,
mapping with only `truststore_path`) is invalid. Returns the resolved path and
certificate mapping on success. -/
def validJksPrefs : JksPrefsInput → Option (String × List (String × String))
  | .nonMapping => none
  | .mapping p _ c =>
    match p, c with
    | some path, some certs =>
      if path ≠ "" ∧ certs ≠ [] then some (path, certs) else none
    | _, _ => none

/-- The external collaborators of the Trust Provisioner:
`create` is `create_jks_truststore_with_certificates` composed with the
truststore's `saves()` serialization (both external and mocked in the harness;
`Except.error` models the constructor raising), and `write` is the container
file-write interface's boolean success result in `raise_on_error=False` mode. -/
structure TrustEnv where
  create : List (String × String) → Except String String
  write : String → String → Bool

/-- Modelled from the spec: `_setup_jks_truststore(container, prefs)` of the
base charm (`legend_operator_base` is not under `src/`). Validation precedes
any I/O; construction failures are caught at the provisioner boundary and
become a blocked status with no write attempted; on success the serialized
truststore is written once to `truststore_path` with `raise_on_error=False`,
a `False` write result becoming a blocked status and `True` yielding `none`.
The result pairs the returned status (or `none` for success) with the list of
file-write calls issued during the call. -/
def setup_jks_truststore (env : TrustEnv) (prefs : JksPrefsInput) :
    Option Status × List WriteCall :=
  match validJksPrefs prefs with
  | none =>
    (some (.blocked "invalid jks truststore preferences provided"), [])
  | some (path, certs) =>
    match env.create certs with
    | .error cause =>
      (some (.blocked
        ("error(s) occurred while creating the jks truststore: " ++ cause)), [])
    | .ok data =>
      if env.write path data then
        (none, [⟨path, data, none, some false⟩])
      else
        (some (.blocked
          "error(s) occurred while adding jks trust store to the workload container"),
         [⟨path, data, none, some false⟩])

/-! ## Relation Gate (`_get_relation`) -/

/-- One concrete relation instance: its relation id, the owning application
name and the opaque key-value data exchanged over it. -/
structure RelationInstance where
  rel_id : Nat
  app : String
  data : List (String × String)
deriving Repr, DecidableEq

/-- The failure the relation lookup can raise, mirroring
`ops.model.TooManyRelatedAppsError`. A `notFound` alternative is included so
that the specification's claimed `NotFound` failure is expressible. -/
inductive GateError where
  | tooManyRelatedApps
  | notFound
deriving Repr, DecidableEq

/-- Modelled from the spec: `_get_relation(relation_name, relation_id=None,
raise_on_multiple_relations=True)` of the base charm (`legend_operator_base`
is not under `src/`), applied to the instances associated with the requested
relation name. The harness test `_test_get_relation` (src lines 189-222) pins
the observable behaviour: with no instance the lookup returns `None`
(`assertIsNone`, it does not fail); with exactly one instance it returns it;
with several instances and no relation id it raises
`TooManyRelatedAppsError` when `raise_on_multiple_relations` is true and
returns `None` when it is false; a given relation id selects the matching
instance. -/
def get_relation (instances : List RelationInstance)
    (relation_id : Option Nat) (raise_on_multiple_relations : Bool) :
    Except GateError (Option RelationInstance) :=
  match relation_id with
  | some rid => .ok (instances.find? (fun r => r.rel_id == rid))
  | none =>
    match instances with
    | [] => .ok none
    | [r] => .ok (some r)
    | _ :: _ :: _ =>
      if raise_on_multiple_relations then .error .tooManyRelatedApps
      else .ok none

/-! ## Config Synthesizer (`_get_core_legend_service_configs`) -/

/-- Result of config synthesis: either a waiting status or the rendered
service configuration set (destination file path paired with content). -/
inductive ConfigsResult where
  | waiting (msg : String)
  | configs (c : List (String × String))
deriving Repr, DecidableEq

/-- Whether a synthesis result is a waiting status. -/
def ConfigsResult.isWaiting : ConfigsResult → Bool
  | .waiting _ => true
  | _ => false

/-- Python truthiness of an optional mapping argument: `not param` is true
exactly when the argument is `None` or an empty mapping. -/
def pyFalsy (param : Option (List (String × String))) : Bool :=
  match param with
  | none => true
  | some m => m.isEmpty

/-- The fixed service configuration set of the test charm
(`BaseFinosLegendTestCharm._get_service_configs_clone`, src lines 100-104). -/
def service_configs_clone : List (String × String) :=
  [("/legend-test-1.json", "\x7b\"some\": \"json\"\x7d"),
   ("/legend-test-2.ini", "[section]\nwith_some = options")]

/-- `BaseFinosLegendCoreServiceTestCharm._get_core_legend_service_configs`
(src lines 486-492): if any credential argument is falsy, return
`WaitingStatus("Missing params")`, else return the service configuration set
built by `_get_service_configs_clone`. -/
def get_core_legend_service_configs
    (legend_db_credentials legend_gitlab_credentials :
      Option (List (String × String))) : ConfigsResult :=
  if [legend_db_credentials, legend_gitlab_credentials].any pyFalsy then
    .waiting "Missing params"
  else
    .configs service_configs_clone

/-! ## GitLab certificate accessor (`_get_legend_gitlab_certificate`) -/

/-- The GitLab credentials mapping, reduced to the single field the
certificate accessor reads. -/
structure GitlabCreds where
  gitlab_host_cert_b64 : String
deriving Repr, DecidableEq

/-- Modelled from the spec: `_get_legend_gitlab_certificate` of the core
service charm (`legend_operator_base` is not under `src/`); behaviour pinned
by the harness test `_test_get_legend_gitlab_certificate` (src lines 562-580).
If the GitLab credentials are absent, or their `gitlab_host_cert_b64` field is
empty, it returns `None`; otherwise it returns the result of the external
certificate parser applied to that field. The result pairs the returned
certificate with the list of arguments the parser was called with. -/
def get_legend_gitlab_certificate (parse : String → String)
    (creds : Option GitlabCreds) : Option String × List String :=
  match creds with
  | none => (none, [])
  | some c =>
    if c.gitlab_host_cert_b64 = "" then (none, [])
    else (some (parse c.gitlab_host_cert_b64), [c.gitlab_host_cert_b64])

/-! ## Workload Reconciler -/

/-- Lexicographic comparison of two character lists by Unicode code point,
the order Python compares strings with. -/
def charListLe : List Char → List Char → Bool
  | [], _ => true
  | _ :: _, [] => false
  | c :: cs, d :: ds =>
    if c.toNat < d.toNat then true
    else if d.toNat < c.toNat then false
    else charListLe cs ds

/-- Code-point lexicographic order on strings. -/
def strLe (s t : String) : Bool := charListLe s.data t.data

/-- Insert a string into a list sorted lexicographically. -/
def insertSorted (s : String) : List String → List String
  | [] => [s]
  | t :: ts => if strLe s t then s :: t :: ts else t :: insertSorted s ts

/-- Lexicographic insertion sort on strings, the order Python's `sorted`
produces on the missing relation names. -/
def sortStrings : List String → List String
  | [] => []
  | s :: ss => insertSorted s (sortStrings ss)

/-- The instances currently associated with a relation name, given the current
relation state as an association list. -/
def relInstances (rels : List (String × List RelationInstance))
    (name : String) : List RelationInstance :=
  match rels.find? (fun p => p.1 == name) with
  | some p => p.2
  | none => []

/-- The static declaration a charm supplies to the reconciler: its required
relation names, its declared workload service names, its JKS truststore
preferences and its config synthesis function (exercised over the gathered
relation state). -/
structure CharmDecl where
  required_relations : List String
  workload_service_names : List String
  jks_prefs : JksPrefsInput
  synth : List (String × List RelationInstance) → ConfigsResult

/-- The required relation names with zero associated instances. -/
def missingRels (decl : CharmDecl)
    (rels : List (String × List RelationInstance)) : List String :=
  decl.required_relations.filter (fun n => (relInstances rels n).isEmpty)

/-- The observable effects of one reconciliation pass: every service-stop and
service-restart call with the service name set it carried, every container
file-write call in order, and the final unit status. -/
structure PassEffects where
  stops : List (List String)
  restarts : List (List String)
  writes : List WriteCall
  status : Status
deriving Repr, DecidableEq

/-- Modelled from the spec: one reconciliation pass of the base charm's
Workload Reconciler (`legend_operator_base` is not under `src/`), evaluated
fresh on every lifecycle event. Step 1: if any required relation is missing,
set `Blocked("missing following relations: <sorted, comma-joined names>")` and
stop all declared workload services — terminal. Step 2-3: synthesize the
config; a waiting result is adopted with no further writes. Step 4: run the
Trust Provisioner; a blocked result is adopted, without writing the remaining
files or restarting. Step 5-7: write every remaining file of the config set in
order with directory creation enabled, restart the declared service set as a
single grouped call, and set the status to active. -/
def reconcile (decl : CharmDecl) (env : TrustEnv)
    (rels : List (String × List RelationInstance)) : PassEffects :=
  let missing := missingRels decl rels
  if missing.isEmpty then
    match decl.synth rels with
    | .waiting m =>
      { stops := [], restarts := [], writes := [], status := .waiting m }
    | .configs cfgs =>
      match setup_jks_truststore env decl.jks_prefs with
      | (some st, tsWrites) =>
        { stops := [], restarts := [], writes := tsWrites, status := st }
      | (none, tsWrites) =>
        { stops := []
          restarts := [decl.workload_service_names]
          writes := tsWrites ++
            cfgs.map (fun pc => ⟨pc.1, pc.2, some true, none⟩)
          status := .active }
  else
    { stops := [decl.workload_service_names]
      restarts := []
      writes := []
      status := .blocked ("missing following relations: " ++
        String.intercalate ", " (sortStrings missing)) }

/-! ## Redirect-URI republication (upgrade and config-changed events) -/

/-- Set (or insert) a key in a string-keyed association list: an existing
entry is updated in place (keys are unique in a Python dict), a new key is
appended, matching Python dict assignment order semantics. -/
def setDictEntry : List (String × String) → String → String →
    List (String × String)
  | [], k, v => [(k, v)]
  | p :: d, k, v =>
    if p.1 == k then (k, v) :: d else p :: setDictEntry d k v

/-- `json.dumps` of a list of plain strings (no escaping needed for the URI
strings involved), with Python's default `", "` item separator. -/
def jsonDumpsList (l : List String) : String :=
  "[" ++ String.intercalate ", " (l.map (fun s => "\"" ++ s ++ "\"")) ++ "]"

/-- The slice of charm state the redirect-URI republication touches: the ids
of the existing gitlab relation instances and this application's data bag on
that relation. -/
structure GitlabRelState where
  rel_ids : List Nat
  app_data : List (String × String)
deriving Repr, DecidableEq

/-- Modelled from the spec: the derived-value republication step shared by the
upgrade-charm and config-changed passes of the core service charm
(`legend_operator_base` is not under `src/`). If no gitlab relation is
present, the redirect-URI derivation (`_get_legend_gitlab_redirect_uris`) is
not invoked at all; otherwise it is invoked once and the derived URIs are
published as JSON under the `legend-gitlab-redirect-uris` key of the existing
relation's application data. The result pairs the number of derivation calls
made with the updated state. -/
def republish_gitlab_uris (derive : Unit → List String)
    (st : GitlabRelState) : Nat × GitlabRelState :=
  if st.rel_ids.isEmpty then (0, st)
  else
    let published := setDictEntry st.app_data "legend-gitlab-redirect-uris"
      (jsonDumpsList (derive ()))
    (1, { st with app_data := published })

/-! ## Helper definitions for concrete evaluation -/

/-- Whether an optional status is a blocked status. -/
def isBlockedOpt : Option Status → Bool
  | some (.blocked _) => true
  | _ => false

/-- Lookup of a key in a string-keyed association list. -/
def lookupDict (d : List (String × String)) (k : String) : Option String :=
  match d.find? (fun p => p.1 == k) with
  | some p => some p.2
  | none => none

/-- The static declaration of the core-service test charm
(`BaseFinosLegendCoreServiceTestCharm`, src lines 438-492): required relations
`legend_db` and `legend_gitlab`, the single workload service
`legend-test-service`, the JKS truststore preferences of
`BaseFinosLegendTestCharm._get_jks_truststore_preferences` (src lines 90-95,
certificate material kept opaque), and a synthesizer always producing the
cloned service configuration set. -/
def testDecl : CharmDecl where
  required_relations := ["legend_db", "legend_gitlab"]
  workload_service_names := ["legend-test-service"]
  jks_prefs := .mapping (some "/path/to/truststore.jks") (some "legend-test")
    (some [("testing-cert-1", "test-certificate-material")])
  synth := fun _ => .configs service_configs_clone

/-- The mocked external collaborators of the harness (src lines 147-161):
truststore creation succeeds and serializes to the mock data, and container
file writes succeed. -/
def testEnv : TrustEnv where
  create := fun _ => .ok "Mock Legend JKS TrustStore data."
  write := fun _ _ => true

/-- A relation state in which both required relations of the core-service test
charm carry exactly one instance, as after `_add_relation` has been called for
each entry of `_get_relations_test_data`. -/
def testRels : List (String × List RelationInstance) :=
  [("legend_db",
    [⟨0, "legend_db-relator", [("legend-db-connection", "test_db_uri")]⟩]),
   ("legend_gitlab",
    [⟨1, "legend_gitlab-relator",
      [("legend-gitlab-connection", "gitlab_test_host")]⟩])]

/-! ## Theorems -/

/-- C3: for every preferences input of invalid shape (not a mapping, an empty
mapping, or lacking a non-empty `trusted_certificates` mapping alongside
`truststore_path` — exactly the inputs `validJksPrefs` rejects) and for every
valid-shaped input whose truststore construction raises,
`setup_jks_truststore` returns a blocked status and issues no container
file-write call. -/
theorem setup_jks_truststore_failure_no_write
    (env : TrustEnv) (prefs : JksPrefsInput)
    (h : validJksPrefs prefs = none ∨
      ∃ path certs cause, validJksPrefs prefs = some (path, certs) ∧
        env.create certs = Except.error cause) :
    isBlockedOpt (setup_jks_truststore env prefs).1 = true ∧
      (setup_jks_truststore env prefs).2 = [] := by
  rcases h with h | ⟨path, certs, cause, hv, hc⟩
  · simp [setup_jks_truststore, h, isBlockedOpt]
  · simp [setup_jks_truststore, hv, hc, isBlockedOpt]

/-- Witness for C3: the non-mapping input `13` of the harness is rejected with
a blocked status and no write. -/
theorem setup_jks_truststore_failure_no_write_witness :
    validJksPrefs JksPrefsInput.nonMapping = none ∧
    isBlockedOpt (setup_jks_truststore testEnv JksPrefsInput.nonMapping).1 = true ∧
    (setup_jks_truststore testEnv JksPrefsInput.nonMapping).2 = [] :=
  ⟨rfl, setup_jks_truststore_failure_no_write testEnv JksPrefsInput.nonMapping
    (Or.inl rfl)⟩

/-- C4: for every valid-shaped preferences input whose truststore construction
succeeds, `setup_jks_truststore` writes the serialized truststore to
`truststore_path` exactly once with `raise_on_error=False`; if the write
returns true the call returns `none`, and if it returns false the call returns
a blocked status. -/
theorem setup_jks_truststore_write_outcome
    (env : TrustEnv) (prefs : JksPrefsInput) (path data : String)
    (certs : List (String × String))
    (hv : validJksPrefs prefs = some (path, certs))
    (hc : env.create certs = Except.ok data) :
    (setup_jks_truststore env prefs).2 = [⟨path, data, none, some false⟩] ∧
    (env.write path data = true → (setup_jks_truststore env prefs).1 = none) ∧
    (env.write path data = false →
      isBlockedOpt (setup_jks_truststore env prefs).1 = true) := by
  cases hw : env.write path data <;>
    simp [setup_jks_truststore, hv, hc, hw, isBlockedOpt]

/-- Witness for C4: the harness preferences under the mocked environment are
written once to the truststore path and the call returns success. -/
theorem setup_jks_truststore_write_outcome_witness :
    validJksPrefs testDecl.jks_prefs =
      some ("/path/to/truststore.jks", [("testing-cert-1", "test-certificate-material")]) ∧
    testEnv.create [("testing-cert-1", "test-certificate-material")] =
      Except.ok "Mock Legend JKS TrustStore data." ∧
    testEnv.write "/path/to/truststore.jks" "Mock Legend JKS TrustStore data." = true ∧
    (setup_jks_truststore testEnv testDecl.jks_prefs).2 =
      [⟨"/path/to/truststore.jks", "Mock Legend JKS TrustStore data.", none, some false⟩] ∧
    (setup_jks_truststore testEnv testDecl.jks_prefs).1 = none := by
  have h := setup_jks_truststore_write_outcome testEnv testDecl.jks_prefs
    "/path/to/truststore.jks" "Mock Legend JKS TrustStore data."
    [("testing-cert-1", "test-certificate-material")] (by decide) rfl
  exact ⟨by decide, rfl, rfl, h.1, h.2.1 rfl⟩

/-- C5 counterexample: with zero associated relation instances, `get_relation`
does not fail at all (in particular not with a not-found error): it succeeds
and returns none, as the harness test asserts with `assertIsNone`. -/
theorem get_relation_no_instance_succeeds :
    get_relation [] none true = Except.ok none ∧
    get_relation [] none true ≠ Except.error GateError.notFound ∧
    (get_relation [] none true).isOk = true := by
  refine ⟨rfl, ?_, rfl⟩
  intro h
  simp [get_relation] at h

/-- C5 (amended): for a requirement name with zero associated relation
instances, `get_relation` returns none without failing, for every relation id
and every `raise_on_multiple_relations` flag; for a name with exactly one
instance it returns that instance. -/
theorem get_relation_zero_or_one_instance
    (rid : Option Nat) (b : Bool) (r : RelationInstance) :
    get_relation [] rid b = Except.ok none ∧
    get_relation [r] none b = Except.ok (some r) := by
  constructor
  · cases rid <;> simp [get_relation]
  · rfl

/-- C6: with more than one associated relation instance and no relation id,
`get_relation` fails with `TooManyRelatedAppsError` when
`raise_on_multiple_relations` is true and returns none when it is false;
supplying a specific relation id still returns the matching instance. -/
theorem get_relation_multiple_instances
    (r1 r2 : RelationInstance) (rest : List RelationInstance) (b : Bool) :
    get_relation (r1 :: r2 :: rest) none true =
      Except.error GateError.tooManyRelatedApps ∧
    get_relation (r1 :: r2 :: rest) none false = Except.ok none ∧
    get_relation (r1 :: r2 :: rest) (some r1.rel_id) b =
      Except.ok (some r1) := by
  refine ⟨rfl, rfl, ?_⟩
  simp [get_relation, List.find?]

/-- C7: `get_core_legend_service_configs` returns a waiting status with the
missing-params reason whenever at least one credential argument is absent or
empty, producing no partial configuration set, and returns the service
configuration set (not a waiting status) when both are present. -/
theorem get_core_legend_service_configs_gate
    (db gitlab : Option (List (String × String))) :
    ((pyFalsy db = true ∨ pyFalsy gitlab = true) →
      get_core_legend_service_configs db gitlab =
        ConfigsResult.waiting "Missing params") ∧
    (pyFalsy db = false → pyFalsy gitlab = false →
      get_core_legend_service_configs db gitlab =
        ConfigsResult.configs service_configs_clone) := by
  constructor
  · intro h
    rcases h with h | h <;> simp [get_core_legend_service_configs, h]
  · intro h1 h2
    simp [get_core_legend_service_configs, h1, h2]

/-- Witness for C7: absent credentials yield the waiting status; the harness's
present credentials yield the configuration set. -/
theorem get_core_legend_service_configs_gate_witness :
    get_core_legend_service_configs none none =
      ConfigsResult.waiting "Missing params" ∧
    get_core_legend_service_configs (some [("username", "test_db_user")])
        (some [("gitlab_host", "gitlab_test_host")]) =
      ConfigsResult.configs service_configs_clone :=
  ⟨(get_core_legend_service_configs_gate none none).1 (Or.inl rfl),
   (get_core_legend_service_configs_gate (some [("username", "test_db_user")])
     (some [("gitlab_host", "gitlab_test_host")])).2 rfl rfl⟩

/-- C10: `get_legend_gitlab_certificate` returns none both when the gitlab
credentials are absent and when their `gitlab_host_cert_b64` field is the
empty string, calling the certificate parser on neither; for a non-empty
certificate string it returns exactly the parser's result on that string,
with the parser called once with that string. -/
theorem get_legend_gitlab_certificate_cases
    (parse : String → String) (s : String) (h : s ≠ "") :
    get_legend_gitlab_certificate parse none = (none, []) ∧
    get_legend_gitlab_certificate parse (some ⟨""⟩) = (none, []) ∧
    get_legend_gitlab_certificate parse (some ⟨s⟩) = (some (parse s), [s]) := by
  refine ⟨rfl, rfl, ?_⟩
  simp [get_legend_gitlab_certificate, h]

/-- Witness for C10: the harness's certificate string is parsed once and
returned. -/
theorem get_legend_gitlab_certificate_cases_witness :
    ("some-cert" : String) ≠ "" ∧
    get_legend_gitlab_certificate (fun x => String.append "parsed " x)
        (some ⟨"some-cert"⟩) =
      (some (String.append "parsed " "some-cert"), ["some-cert"]) :=
  ⟨by decide,
   (get_legend_gitlab_certificate_cases (fun x => String.append "parsed " x)
     "some-cert" (by decide)).2.2⟩

/-- C1: in every reconciliation pass in which at least one required relation
has zero instances, the unit status becomes blocked with message exactly
"missing following relations: " followed by the missing requirement names
sorted and comma-joined, and a single stop of the full declared workload
service name set is issued in that same pass (with no writes or restarts). -/
theorem reconcile_missing_relations_blocked
    (decl : CharmDecl) (env : TrustEnv)
    (rels : List (String × List RelationInstance))
    (h : ∃ r ∈ decl.required_relations, relInstances rels r = []) :
    reconcile decl env rels =
      { stops := [decl.workload_service_names], restarts := [], writes := [],
        status := .blocked ("missing following relations: " ++
          String.intercalate ", " (sortStrings (missingRels decl rels))) } := by
  have hne : (missingRels decl rels).isEmpty = false := by
    obtain ⟨r, hr, he⟩ := h
    have hmem : r ∈ missingRels decl rels :=
      List.mem_filter.mpr ⟨hr, by simp [he]⟩
    cases hml : missingRels decl rels with
    | nil => rw [hml] at hmem; cases hmem
    | cons a l => rfl
  simp [reconcile, hne]

/-- Witness for C1: with no relations at all, the pass blocks on both required
relations (sorted, comma-joined) and stops the declared service set. -/
theorem reconcile_missing_relations_blocked_witness :
    (∃ r ∈ testDecl.required_relations, relInstances [] r = []) ∧
    reconcile testDecl testEnv [] =
      { stops := [["legend-test-service"]], restarts := [], writes := [],
        status := .blocked
          "missing following relations: legend_db, legend_gitlab" } := by
  refine ⟨⟨"legend_db", by simp [testDecl], rfl⟩, ?_⟩
  have h := reconcile_missing_relations_blocked testDecl testEnv []
    ⟨"legend_db", by simp [testDecl], rfl⟩
  rw [h]
  decide

/-- C2: in every reconciliation pass in which all required relations are
present (as after the last of the progressive relation additions), the
synthesizer yields a configuration set, the truststore preferences are valid
and its construction and write succeed, the pass writes the truststore file
first (with `raise_on_error=False`), then each file of the configuration set
in the synthesizer's stable order with `make_dirs=True`, issues exactly one
restart call carrying the full workload service name set, and sets the unit
status to active. -/
theorem reconcile_all_relations_active
    (decl : CharmDecl) (env : TrustEnv)
    (rels : List (String × List RelationInstance))
    (cfgs : List (String × String)) (path data : String)
    (certs : List (String × String))
    (hall : ∀ r ∈ decl.required_relations, relInstances rels r ≠ [])
    (hsynth : decl.synth rels = .configs cfgs)
    (hvalid : validJksPrefs decl.jks_prefs = some (path, certs))
    (hcreate : env.create certs = Except.ok data)
    (hwrite : env.write path data = true) :
    reconcile decl env rels =
      { stops := [], restarts := [decl.workload_service_names],
        writes := ⟨path, data, none, some false⟩ ::
          cfgs.map (fun pc => ⟨pc.1, pc.2, some true, none⟩),
        status := .active } := by
  have hmiss : (missingRels decl rels).isEmpty = true := by
    have : missingRels decl rels = [] := by
      rw [missingRels, List.filter_eq_nil_iff]
      intro a ha
      simp only [List.isEmpty_iff]
      exact hall a ha
    simp [this]
  have hts : setup_jks_truststore env decl.jks_prefs =
      (none, [⟨path, data, none, some false⟩]) := by
    simp [setup_jks_truststore, hvalid, hcreate, hwrite]
  simp [reconcile, hmiss, hsynth, hts]

/-- Witness for C2: with both required relations present under the mocked
environment, the pass writes the truststore first, then the two config files
with directory creation, restarts the service set once, and goes active. -/
theorem reconcile_all_relations_active_witness :
    (∀ r ∈ testDecl.required_relations, relInstances testRels r ≠ []) ∧
    testDecl.synth testRels = .configs service_configs_clone ∧
    reconcile testDecl testEnv testRels =
      { stops := [], restarts := [["legend-test-service"]],
        writes :=
          [⟨"/path/to/truststore.jks", "Mock Legend JKS TrustStore data.",
            none, some false⟩,
           ⟨"/legend-test-1.json", "\x7b\"some\": \"json\"\x7d", some true, none⟩,
           ⟨"/legend-test-2.ini", "[section]\nwith_some = options",
            some true, none⟩],
        status := .active } := by
  refine ⟨by decide, rfl, ?_⟩
  have h := reconcile_all_relations_active testDecl testEnv testRels
    service_configs_clone "/path/to/truststore.jks"
    "Mock Legend JKS TrustStore data."
    [("testing-cert-1", "test-certificate-material")]
    (by decide) rfl (by decide) rfl rfl
  rw [h]
  decide

/-- C8: an upgrade pass processed while the gitlab relation is absent does not
invoke the redirect-URI derivation at all (zero calls, state unchanged); an
upgrade pass processed once the gitlab relation is present invokes it exactly
once and republishes the newly derived URIs as JSON under the
`legend-gitlab-redirect-uris` key of the relation's application data. -/
theorem upgrade_uris_derivation_gated
    (derive : Unit → List String) (d : List (String × String))
    (i : Nat) (ids : List Nat) :
    republish_gitlab_uris derive ⟨[], d⟩ = (0, ⟨[], d⟩) ∧
    republish_gitlab_uris derive ⟨i :: ids, d⟩ =
      (1, ⟨i :: ids, setDictEntry d "legend-gitlab-redirect-uris"
        (jsonDumpsList (derive ()))⟩) := by
  constructor <;> simp [republish_gitlab_uris]

/-- Setting a key in a string-keyed association list makes lookup of that key
return the new value. -/
theorem lookupDict_setDictEntry (d : List (String × String)) (k v : String) :
    lookupDict (setDictEntry d k v) k = some v := by
  induction d with
  | nil => simp [setDictEntry, lookupDict]
  | cons p dtl ih =>
    by_cases hp : p.1 == k
    · simp [setDictEntry, hp, lookupDict]
    · simp only [setDictEntry, hp, if_false, Bool.false_eq_true]
      simpa [lookupDict, List.find?, hp] using ih

/-- C9: once the gitlab relation exists, a config-changed pass (for instance
after updating the external-hostname option while active) publishes the newly
derived redirect URIs as JSON under the `legend-gitlab-redirect-uris` key of
the existing relation's application data, and the set of relation instance ids
is unchanged — no new relation instance is created. -/
theorem config_changed_republishes_uris
    (derive : Unit → List String) (st : GitlabRelState)
    (h : st.rel_ids ≠ []) :
    (republish_gitlab_uris derive st).2.rel_ids = st.rel_ids ∧
    lookupDict (republish_gitlab_uris derive st).2.app_data
        "legend-gitlab-redirect-uris" =
      some (jsonDumpsList (derive ())) := by
  have hne : st.rel_ids.isEmpty = false := by
    cases hl : st.rel_ids with
    | nil => exact absurd hl h
    | cons a l => rfl
  constructor
  · simp [republish_gitlab_uris, hne]
  · simp [republish_gitlab_uris, hne, lookupDict_setDictEntry]

/-- Witness for C9: updating the hostname-derived URIs on a state holding one
gitlab relation rewrites the published JSON in place and keeps the relation
instance id set. -/
theorem config_changed_republishes_uris_witness :
    (([0] : List Nat) ≠ []) ∧
    (republish_gitlab_uris (fun _ => ["foo.lish"])
      ⟨[0], [("legend-gitlab-redirect-uris",
        "[\"legendary.callback.url\"]")]⟩).2.rel_ids = [0] ∧
    lookupDict (republish_gitlab_uris (fun _ => ["foo.lish"])
        ⟨[0], [("legend-gitlab-redirect-uris",
          "[\"legendary.callback.url\"]")]⟩).2.app_data
        "legend-gitlab-redirect-uris" =
      some "[\"foo.lish\"]" := by
  have h := config_changed_republishes_uris (fun _ => ["foo.lish"])
    ⟨[0], [("legend-gitlab-redirect-uris", "[\"legendary.callback.url\"]")]⟩
    (by decide)
  exact ⟨by decide, h.1, by rw [h.2]; rfl⟩

end LegendCharm
